import Mathlib

/-!
Shallow embedding of `src/pss.py` (PSS Maker — template fill), the single
source file of the repository, together with theorems settling the frozen
claims about it.

Python strings are modelled as Lean `String` (a wrapper around `List Char`,
matching Python code points for the ASCII data the program manipulates).
Python exceptions are modelled with `Except`.  Filesystem presence
(`os.path.exists`) is a parameter `ex : String → Bool`.  Loading a `.docx`
file (`docx.Document(path)`) is a parameter `load : String → Doc`.
-/

namespace PSS

/-! ## Python string primitives -/

/-- The whitespace characters stripped by Python `str.strip()` (ASCII part;
Unicode whitespace beyond these is outside the modelled character set). -/
def isPySpace (c : Char) : Bool :=
  c = ' ' || c = '\t' || c = '\n' || c = '\r' || c = '\x0b' || c = '\x0c'

/-- Python `s.strip()`: remove leading and trailing whitespace. -/
def pyStrip (s : String) : String :=
  ⟨((s.toList.dropWhile isPySpace).reverse.dropWhile isPySpace).reverse⟩

/-- Substring test on character lists: does `pat` occur inside `s`?
(The empty pattern occurs in every string, as in Python `"" in s`.) -/
def listContainsSub : List Char → List Char → Bool
  | [], pat => pat.isEmpty
  | c :: cs, pat => pat.isPrefixOf (c :: cs) || listContainsSub cs pat

/-- Python `pat in s` for strings. -/
def pyContains (s pat : String) : Bool :=
  listContainsSub s.toList pat.toList

/-- Scanner for Python `str.replace` with a non-empty pattern: left-to-right,
non-overlapping.  The `Nat` argument counts characters still to be skipped
because they were consumed by the match just emitted. -/
def pyReplaceAux (pat rep : List Char) : List Char → Nat → List Char
  | [], _ => []
  | _ :: cs, k + 1 => pyReplaceAux pat rep cs k
  | c :: cs, 0 =>
    if pat.isPrefixOf (c :: cs) then
      rep ++ pyReplaceAux pat rep cs (pat.length - 1)
    else
      c :: pyReplaceAux pat rep cs 0

/-- Python `s.replace(pat, rep)`: replace every non-overlapping occurrence of
`pat`, scanning left to right.  Replacing the empty pattern inserts `rep`
at every position (Python semantics). -/
def pyReplace (s pat rep : String) : String :=
  if pat.toList = [] then
    ⟨rep.toList ++ (s.toList.map (fun c => c :: rep.toList)).flatten⟩
  else
    ⟨pyReplaceAux pat.toList rep.toList s.toList 0⟩

/-! ## Document model

python-docx objects: a run is an atomic (style, text) pair — the style
(font, size, bold, …) is opaque to the program, which only ever reads and
writes `run.text`, so it is modelled as an abstract handle `style : Nat`.
A paragraph is a list of runs.  A block (document body, table cell, header,
footer) holds paragraphs and tables; a table is a grid of cells, each cell
a block again. -/

structure Run where
  style : Nat
  text : String
deriving DecidableEq, Repr

structure Paragraph where
  runs : List Run
deriving DecidableEq, Repr

/-- A block container: `paragraphs` and `tables`, where a table is a list of
rows, a row a list of cells, and a cell is again a block. -/
inductive Block where
  | mk (paragraphs : List Paragraph) (tables : List (List (List Block)))

def Block.paragraphs : Block → List Paragraph
  | .mk ps _ => ps

def Block.tables : Block → List (List (List Block))
  | .mk _ ts => ts

/-- A table: rows of cells, each cell a block. -/
abbrev Table := List (List Block)

/-- A document section: its header and footer blocks. -/
structure Sec where
  header : Block
  footer : Block

/-- A loaded docx document: the main body block plus the sections. -/
structure Doc where
  body : Block
  sections : List Sec

/-- The serialized artifact: `doc.save(bio); bio.read()` — serialization is
modelled as a faithful wrapping of the document tree. -/
structure DocBytes where
  content : Doc

def docSave (doc : Doc) : DocBytes := ⟨doc⟩

/-! ## Substitution engine (lines 11-50 of src/pss.py) -/

/-- A token mapping: Python dicts preserve insertion order, so the mapping is
an ordered association list. -/
abbrev Mapping := List (String × String)

/-- The inner loop of `replace_text_in_paragraph` applied to one run text:
`for key, val in mapping.items(): if key in run.text: run.text =
run.text.replace(key, val)` — each replacement acts on the already-updated
text. -/
def applyMapping (mapping : Mapping) (text : String) : String :=
  mapping.foldl (fun acc kv => if pyContains acc kv.1 then pyReplace acc kv.1 kv.2 else acc) text

/-- `replace_text_in_paragraph` (lines 11-21): iterate over the runs, doing
the replacement inside each run text separately; the style is untouched. -/
def replace_text_in_paragraph (paragraph : Paragraph) (mapping : Mapping) : Paragraph :=
  ⟨paragraph.runs.map (fun run => ⟨run.style, applyMapping mapping run.text⟩)⟩

/-- `replace_text_in_block` (lines 28-33): every paragraph of the block, then
every table; `replace_text_in_table` (lines 23-26) descends rows → cells and
calls `replace_text_in_block` on each cell (with both arguments — the arity
slip is only in `apply_replacements`).  The mutual recursion of the two
Python functions is inlined here into one recursive definition. -/
def replace_text_in_block : Block → Mapping → Block
  | .mk ps ts, mapping =>
    Block.mk (ps.map (fun p => replace_text_in_paragraph p mapping))
      (ts.attach.map (fun t =>
        t.1.attach.map (fun row =>
          row.1.attach.map (fun cell => replace_text_in_block cell.1 mapping))))
termination_by block _ => sizeOf block
decreasing_by
  have h1 : sizeOf cell.1 < sizeOf row.1 := List.sizeOf_lt_of_mem cell.2
  have h2 : sizeOf row.1 < sizeOf t.1 := List.sizeOf_lt_of_mem row.2
  have h3 : sizeOf t.1 < sizeOf ts := List.sizeOf_lt_of_mem t.2
  simp only [Block.mk.sizeOf_spec]
  omega

/-- `replace_text_in_table` (lines 23-26) as a wrapper over the inlined
recursion. -/
def replace_text_in_table (table : Table) (mapping : Mapping) : Table :=
  table.map (fun row => row.map (fun cell => replace_text_in_block cell mapping))

/-- Python runtime errors that the modelled code can raise. -/
inductive PyErr where
  | typeError (msg : String)
deriving DecidableEq, Repr

/-- The TypeError raised by line 37, `replace_text_in_block(doc)`: the
function requires two positional arguments and the call passes only one. -/
def missingMappingError : PyErr :=
  .typeError "replace_text_in_block() missing 1 required positional argument: mapping"

/-- `apply_replacements` (lines 35-50).  Its first statement, line 37, is
`replace_text_in_block(doc)` — the `mapping` argument is missing, so Python
raises `TypeError` before any replacement is performed, and the header/footer
loop of lines 40-50 (whose own one-argument calls would raise the same
TypeError, swallowed by `try ... except Exception: pass`) is never reached. -/
def apply_replacements (doc : Doc) (mapping : Mapping) : Except PyErr Doc :=
  let _ := doc
  let _ := mapping
  Except.error missingMappingError

/-- `create_docx_from_template` (lines 81-92): load the template, run
`apply_replacements`, serialize.  The exception from `apply_replacements`
propagates. -/
def create_docx_from_template (load : String → Doc) (template_path : String)
    (mapping : Mapping) : Except PyErr DocBytes := do
  let doc := load template_path
  let doc ← apply_replacements doc mapping
  return docSave doc

/-! ## Template locator (lines 53-78) -/

/-- `find_template_for_code`: strip the code (`(code or "").strip()` — a
`None` argument is modelled as `none`), pick the fixed candidate list for the
two recognized codes, and return the first candidate that exists on the
filesystem `ex`; any other code yields `none` with no exception. -/
def find_template_for_code (ex : String → Bool) (code : Option String) : Option String :=
  let code := pyStrip (code.getD "")
  let candidates : Option (List String) :=
    if code = "001" then
      some ["MOD PSS.docx", "/mnt/data/MOD PSS.docx", "templates/MOD PSS.docx"]
    else if code = "002" then
      some ["FAR PSS.docx", "/mnt/data/FAR PSS.docx", "templates/FAR PSS.docx"]
    else
      none
  match candidates with
  | none => none
  | some cs => cs.find? ex

/-! ## Fallback document builder (lines 95-160) -/

/-- Python truthiness of an optional string (`None` and `""` are falsy). -/
def pyTruthy : Option String → Bool
  | none => false
  | some v => v ≠ ""

/-- A paragraph holding a single run (python-docx `add_paragraph(text)` /
`add_run(text)`), with the given opaque style handle. -/
def para1 (style : Nat) (text : String) : Paragraph := ⟨[⟨style, text⟩]⟩

/-- `doc.add_paragraph()` with no text. -/
def paraEmpty : Paragraph := ⟨[]⟩

/-- A paragraph produced by `add_picture`: an image carries no text content,
so it is modelled as a run with empty text. -/
def paraPicture : Paragraph := ⟨[⟨0, ""⟩]⟩

/-- `create_docx_fallback` (lines 95-160): build a document from scratch.
Styles are opaque handles: `0` default, `1` bold, `10` for `Pt(10)`.
`item_details` is the ordered dict of label ↦ (code, weight); the
`f"\x7bfloat(weight):.2f\x7d"` float rendering (with its `try/except`
fallback to `str(weight)`) is abstracted as the pre-rendered string
`weight_str`, floating point being outside the embedding.  The
`try/except`-guarded column widths and pictures have no text effect. -/
def create_docx_fallback (ex : String → Bool) (date_str salutation1 full_name designation
    company_name city_state salutation2 po_id custom_line : String)
    (item_details : List (String × String × String))
    (letterhead_path seal_path : Option String) : DocBytes :=
  let letterheadParas : List Paragraph :=
    if pyTruthy letterhead_path && ex (letterhead_path.getD "") then [paraPicture] else []
  let table : Table :=
    [[Block.mk [para1 10 "Kindly Att."] [],
      Block.mk [para1 10 ("Date: " ++ date_str)] []]]
  let itemParas : List Paragraph :=
    item_details.map (fun it => para1 0 (it.1 ++ ") " ++ it.2.1 ++ " - " ++ it.2.2 ++ " MT"))
  let sealParas : List Paragraph :=
    if pyTruthy seal_path && ex (seal_path.getD "") then [paraPicture, paraEmpty] else []
  let paragraphs : List Paragraph :=
    letterheadParas ++
    [paraEmpty, paraEmpty,
     para1 1 (salutation1 ++ " " ++ full_name ++ ","),
     para1 0 ("(" ++ designation ++ ")"),
     para1 0 (company_name ++ ","),
     para1 0 city_state,
     paraEmpty,
     para1 0 ("Dear " ++ salutation2 ++ ","),
     paraEmpty,
     para1 0 custom_line,
     para1 0 ("P.O. ID: " ++ po_id),
     paraEmpty] ++
    itemParas ++
    [paraEmpty,
     para1 0 "Kindly acknowledge receipt of the same.",
     paraEmpty,
     para1 10 "Yours Faithfully,",
     paraEmpty] ++
    sealParas ++
    [para1 0 "Authorised Signatory",
     para1 0 "Aravally Processed Agrotech Pvt Ltd"]
  docSave { body := Block.mk paragraphs [table], sections := [] }

/-- `letterhead_path` (line 302). -/
def letterhead_path (ex : String → Bool) : Option String :=
  if ex "letterhead.png" then some "letterhead.png" else none

/-- `seal_path` (lines 303-308): first existing seal candidate. -/
def seal_path (ex : String → Bool) : Option String :=
  ["/mnt/data/APAPL SEAL.png", "APAPL SEAL.png", "APAPL_SEAL.png", "seal.png"].find? ex

/-- The field values the submitted handler passes to `create_docx_fallback`. -/
structure FallbackArgs where
  date_str : String
  salutation1 : String
  full_name : String
  designation : String
  company_name : String
  city_state : String
  salutation2 : String
  po_id : String
  custom_line : String
  item_details : List (String × String × String)

/-- The fallback call as written at lines 327-329 and 332-334. -/
def runFallback (ex : String → Bool) (a : FallbackArgs) : DocBytes :=
  create_docx_fallback ex a.date_str a.salutation1 a.full_name a.designation a.company_name
    a.city_state a.salutation2 a.po_id a.custom_line a.item_details
    (letterhead_path ex) (seal_path ex)

/-- The document-generation part of the submitted handler (lines 317-334):
if a template path was found, try `create_docx_from_template`; any exception
is caught (`except Exception as e`), reported via `st.error` (the `some e`
component), and the fallback document is built instead.  If no template path
was found, a warning is shown and the fallback document is built directly.
The first component is the artifact stored in `st.session_state.docx_bytes`. -/
def submitted_generate (ex : String → Bool) (load : String → Doc)
    (template_path : Option String) (mapping : Mapping) (a : FallbackArgs) :
    DocBytes × Option PyErr :=
  match template_path with
  | some tp =>
    match create_docx_from_template load tp mapping with
    | .ok bytes => (bytes, none)
    | .error e => (runFallback ex a, some e)
  | none => (runFallback ex a, none)

/-! ## Token mapper (lines 263-296) -/

/-- Python `mapping.get(k, default)` on an ordered association list. -/
def pyDictGet (m : Mapping) (k default : String) : String :=
  match m.find? (fun kv => kv.1 = k) with
  | some kv => kv.2
  | none => default

/-- Python `k in mapping`. -/
def pyDictHas (m : Mapping) (k : String) : Bool :=
  (m.find? (fun kv => kv.1 = k)).isSome

/-- Python `mapping[k] = v`: update in place if the key exists (keeping its
position), otherwise append. -/
def pyDictSet (m : Mapping) (k v : String) : Mapping :=
  if pyDictHas m k then m.map (fun kv => if kv.1 = k then (k, v) else kv)
  else m ++ [(k, v)]

/-- Line 275: `po_value = po_id.strip() if po_id and po_id.strip() else
"PO012"` — a blank or whitespace-only identifier resolves to the default
literal. -/
def po_value (po_id : String) : String :=
  if po_id ≠ "" ∧ pyStrip po_id ≠ "" then pyStrip po_id else "PO012"

/-- The braced batch token `f"\x7b\x7b\x7b\x7bB\x7bi+1\x7d\x7d\x7d\x7d\x7d"`,
e.g. `"\x7b\x7bB1\x7d\x7d"`. -/
def bTokenBraced (i : Nat) : String := "\x7b\x7bB" ++ Nat.repr i ++ "\x7d\x7d"

/-- The bare batch token, e.g. `"B1"`. -/
def bTokenPlain (i : Nat) : String := "B" ++ Nat.repr i

/-- The triple-braced batch token, e.g. `"\x7b\x7b\x7bB1\x7d\x7d\x7d"`. -/
def bTokenTriple (i : Nat) : String := "\x7b\x7b\x7bB" ++ Nat.repr i ++ "\x7d\x7d\x7d"

/-- Lines 267-296: build the token mapping by the same sequence of dict
assignments as the source.  `b_vals` is `[b1.strip(), …, b4.strip()]` and
`fallback_codes` the item-code list (length 6 in the handler, but kept
arbitrary here as the loop guards on its length). -/
def buildMapping (date_str_final po_value : String) (b_vals fallback_codes : List String) :
    Mapping :=
  let m : Mapping := []
  let m := pyDictSet m "\x7b\x7bDD/MM/YYYY\x7d\x7d" date_str_final
  let m := pyDictSet m "DD/MM/YYYY" date_str_final
  let m := pyDictSet m "\x7b\x7bPO012\x7d\x7d" po_value
  let m := pyDictSet m "PO012" po_value
  let m := pyDictSet m "\x7b\x7bP.O. ID\x7d\x7d" po_value
  let m := pyDictSet m "\x7b\x7bP.O. ID:\x7d\x7d" po_value
  let m := (List.range 4).foldl (fun m i =>
    let val := if b_vals.getD i "" ≠ "" then b_vals.getD i ""
      else if i < fallback_codes.length then fallback_codes.getD i "" else ""
    pyDictSet (pyDictSet m (bTokenBraced (i + 1)) val) (bTokenPlain (i + 1)) val) m
  let m := (List.range 4).foldl (fun m i =>
    let triple := bTokenTriple (i + 1)
    if pyDictHas m triple then m
    else pyDictSet m triple (pyDictGet m (bTokenBraced (i + 1)) "")) m
  m

/-! ## Date handling (lines 249-261) -/

/-- Decimal value of a digit string, as Python `int()` on ASCII digits. -/
def digitsVal (l : List Char) : Nat :=
  l.foldl (fun a c => 10 * a + (c.toNat - 48)) 0

/-- The regex match of line 252,
`re.match(r"^(\d\x7b1,2\x7d)/(\d\x7b1,2\x7d)/(\d\x7b4\x7d)$", s)`, on the
already-stripped text: one or two digits, a slash, one or two digits, a
slash, exactly four digits, end of string.  The greedy `\d\x7b1,2\x7d`
followed by `/` is equivalent to taking the maximal digit run and requiring
its length to be 1 or 2 (`\d` is modelled as an ASCII digit; non-ASCII
Unicode digits are outside the modelled character set).  Returns the groups
`(day, month, year)` as numbers. -/
def matchDatePattern (s : String) : Option (Nat × Nat × Nat) :=
  let cs := s.toList
  let ds1 := cs.takeWhile Char.isDigit
  let r1 := cs.dropWhile Char.isDigit
  if ds1.length = 1 ∨ ds1.length = 2 then
    match r1 with
    | '/' :: r1x =>
      let ds2 := r1x.takeWhile Char.isDigit
      let r2 := r1x.dropWhile Char.isDigit
      if ds2.length = 1 ∨ ds2.length = 2 then
        match r2 with
        | '/' :: r2x =>
          if r2x.length = 4 ∧ r2x.all Char.isDigit then
            some (digitsVal ds1, digitsVal ds2, digitsVal r2x)
          else none
        | _ => none
      else none
    | _ => none
  else none

/-- Gregorian leap year, as Python `datetime`. -/
def isLeap (y : Nat) : Bool :=
  y % 4 = 0 && (y % 100 ≠ 0 || y % 400 = 0)

def daysInMonth (y m : Nat) : Nat :=
  if m = 2 then (if isLeap y then 29 else 28)
  else if m = 4 ∨ m = 6 ∨ m = 9 ∨ m = 11 then 30
  else 31

/-- Modelled from the `datetime(year, month, day)` constructor of the Python
standard library: it raises `ValueError` unless `MINYEAR ≤ year ≤ MAXYEAR`
(1..9999), `1 ≤ month ≤ 12` and the day fits the month. -/
def datetimeValid (y m d : Nat) : Bool :=
  1 ≤ y && y ≤ 9999 && 1 ≤ m && m ≤ 12 && 1 ≤ d && d ≤ daysInMonth y m

/-- `%d` / `%m`: zero-padded to two digits. -/
def pad2 (n : Nat) : String :=
  if n < 10 then "0" ++ Nat.repr n else Nat.repr n

/-- `strftime("%d/%m/%Y")`: two-digit day and month; `%Y` prints the year in
decimal without padding (glibc behaviour). -/
def strftime_dmY (d m y : Nat) : String :=
  pad2 d ++ "/" ++ pad2 m ++ "/" ++ Nat.repr y

/-- The calendar date selected with the date picker. -/
structure CalDate where
  year : Nat
  month : Nat
  day : Nat

/-- Lines 250-261: parse `date_text`; on a pattern match, build the
`datetime` (whose `ValueError` for an impossible date is caught, yielding
`None`) and format it; `if not date_str_final:` then falls back to the
calendar date when the result is `None` (or an empty string, which the
format never produces). -/
def date_str_final (date_text : String) (date_picker : CalDate) : String :=
  let parsed : Option String :=
    match matchDatePattern (pyStrip date_text) with
    | some (d, m, y) =>
      if datetimeValid y m d then some (strftime_dmY d m y) else none
    | none => none
  match parsed with
  | some s =>
    if s = "" then strftime_dmY date_picker.day date_picker.month date_picker.year else s
  | none => strftime_dmY date_picker.day date_picker.month date_picker.year

/-! ## Filename composition (lines 310-314) -/

/-- The characters matched by the character class of line 312,
`re.sub(r'[\/:*?"<>|]', '', po_value)`.  Inside a regex character class the
pair `\/` denotes the single character `/`, so the backslash character
itself is not in the class. -/
def illegalClass : List Char := ['/', ':', '*', '?', '"', '<', '>', '|']

/-- Line 312: `safe_po` — remove every character of the class. -/
def safe_po (po_value : String) : String :=
  ⟨po_value.toList.filter (fun c => decide (c ∉ illegalClass))⟩

/-- Python `s[-3:]` for a string of length at least 3: the last three
characters. -/
def lastThree (s : String) : String :=
  ⟨s.toList.drop (s.toList.length - 3)⟩

/-- Line 313: `po_suffix = safe_po[-3:] if len(safe_po) >= 3 else "000"`. -/
def po_suffix (po_value : String) : String :=
  if 3 ≤ (safe_po po_value).toList.length then lastThree (safe_po po_value) else "000"

/-- Line 311: `suffix = "MOD" if user_code == "001" else "FAR" if user_code
== "002" else "GEN"` — note the raw, unstripped `user_code`. -/
def suffixFor (user_code : String) : String :=
  if user_code = "001" then "MOD" else if user_code = "002" then "FAR" else "GEN"

/-- Line 314: the composed output filename.  `current` and `total` come from
`st.number_input(min_value=1)`, hence are natural numbers; `int(n)` of an
int is the identity and the f-string renders them in decimal. -/
def composeFilename (user_code po_value : String) (current total : Nat) : String :=
  "PSS LIPL " ++ suffixFor user_code ++ " " ++ po_suffix po_value ++ " " ++
    Nat.repr current ++ " of " ++ Nat.repr total ++ ".docx"

/-! ## Concrete fixtures used by witnesses and counterexamples -/

/-- The paragraph of end-to-end scenario 3, as a single run. -/
def scenarioPara : Paragraph :=
  ⟨[⟨0, "Sending you Pre-Shipment sample of \x7b\x7bB1\x7d\x7d"⟩]⟩

/-- A document whose body holds only the scenario paragraph. -/
def scenarioDoc : Doc := { body := Block.mk [scenarioPara] [], sections := [] }

/-- The scenario mapping sending the B1 token to "LOT-44". -/
def scenarioMapping : Mapping := [("\x7b\x7bB1\x7d\x7d", "LOT-44")]

/-- The scenario paragraph with the token split across two runs. -/
def splitPara : Paragraph :=
  ⟨[⟨0, "Sending you Pre-Shipment sample of \x7b\x7bB"⟩, ⟨1, "1\x7d\x7d"⟩]⟩

/-- A filesystem on which only the /mnt/data MOD template exists. -/
def exMOD (p : String) : Bool := p == "/mnt/data/MOD PSS.docx"

/-- A loader returning the scenario document for every path. -/
def loadW : String → Doc := fun _ => scenarioDoc

/-- Concrete fallback field values. -/
def fbArgsW : FallbackArgs :=
  ⟨"01/01/2024", "Mr.", "N", "D", "C", "R", "Sir", "PO012", "line", []⟩

/-! ## Helper lemmas -/

theorem applyMapping_id_of_no_token : ∀ (mapping : Mapping) (s : String),
    (∀ kv ∈ mapping, pyContains s kv.1 = false) → applyMapping mapping s = s := by
  intro mapping
  induction mapping with
  | nil => intro s _; rfl
  | cons kv rest ih =>
    intro s h
    have hkv : pyContains s kv.1 = false := h kv (by simp)
    have hrest : ∀ kv2 ∈ rest, pyContains s kv2.1 = false :=
      fun kv2 hm => h kv2 (by simp [hm])
    unfold applyMapping at ih ⊢
    simp only [List.foldl_cons, hkv, Bool.false_eq_true, if_false]
    exact ih s hrest

theorem find?_three {α : Type} (p : α → Bool) (a b c : α) :
    [a, b, c].find? p =
      if p a then some a else if p b then some b else if p c then some c else none := by
  cases hpa : p a <;> cases hpb : p b <;> cases hpc : p c <;>
    simp [List.find?, hpa, hpb, hpc]

theorem digitChar_isDigit (m : Nat) (h : m < 10) : (Nat.digitChar m).isDigit = true := by
  interval_cases m <;> decide

theorem toDigitsCore_isDigit :
    ∀ (fuel n : Nat) (ds : List Char), (∀ c ∈ ds, c.isDigit = true) →
      ∀ c ∈ Nat.toDigitsCore 10 fuel n ds, c.isDigit = true := by
  intro fuel
  induction fuel with
  | zero => intro n ds h c hc; exact h c hc
  | succ fuel ih =>
    intro n ds h c hc
    simp only [Nat.toDigitsCore] at hc
    by_cases hn : n / 10 = 0
    · rw [if_pos hn] at hc
      rcases List.mem_cons.mp hc with h1 | h1
      · subst h1; exact digitChar_isDigit _ (Nat.mod_lt n (by norm_num))
      · exact h c h1
    · rw [if_neg hn] at hc
      refine ih (n / 10) (Nat.digitChar (n % 10) :: ds) ?_ c hc
      intro c2 hc2
      rcases List.mem_cons.mp hc2 with h2 | h2
      · subst h2; exact digitChar_isDigit _ (Nat.mod_lt n (by norm_num))
      · exact h c2 h2

theorem repr_isDigit (n : Nat) : ∀ c ∈ (Nat.repr n).toList, c.isDigit = true := by
  intro c hc
  have he : (Nat.repr n).toList = Nat.toDigitsCore 10 (n + 1) n [] := rfl
  rw [he] at hc
  exact toDigitsCore_isDigit (n + 1) n [] (by simp) c hc

theorem illegal_not_digit : ∀ c ∈ illegalClass, c.isDigit = false := by decide

theorem digit_not_illegal (c : Char) (h : c.isDigit = true) : c ∉ illegalClass :=
  fun hc => by
    have hf := illegal_not_digit c hc
    rw [h] at hf
    exact Bool.noConfusion hf

theorem safe_po_sane (po : String) : ∀ c ∈ (safe_po po).toList, c ∉ illegalClass := by
  intro c hc
  have hc2 : c ∈ po.toList.filter (fun c => decide (c ∉ illegalClass)) := hc
  exact of_decide_eq_true (List.mem_filter.mp hc2).2

theorem po_suffix_sane (po : String) : ∀ c ∈ (po_suffix po).toList, c ∉ illegalClass := by
  intro c hc
  unfold po_suffix at hc
  split at hc
  · have hd : c ∈ (safe_po po).toList := List.drop_subset _ _ hc
    exact safe_po_sane po c hd
  · have h000 : ∀ c2 ∈ ("000" : String).toList, c2 ∉ illegalClass := by decide
    exact h000 c hc

theorem suffixFor_sane (code : String) : ∀ c ∈ (suffixFor code).toList, c ∉ illegalClass := by
  intro c hc
  unfold suffixFor at hc
  split at hc
  · exact (by decide : ∀ c2 ∈ ("MOD" : String).toList, c2 ∉ illegalClass) c hc
  · split at hc
    · exact (by decide : ∀ c2 ∈ ("FAR" : String).toList, c2 ∉ illegalClass) c hc
    · exact (by decide : ∀ c2 ∈ ("GEN" : String).toList, c2 ∉ illegalClass) c hc

theorem pyDictGet_map_ne (m : Mapping) (k2 v2 k d : String) (hne : k2 ≠ k) :
    pyDictGet (m.map (fun kv => if kv.1 = k2 then (k2, v2) else kv)) k d = pyDictGet m k d := by
  induction m with
  | nil => rfl
  | cons kv rest ih =>
    by_cases hkv2 : kv.1 = k2
    · have hkvk : (decide (kv.1 = k)) = false := decide_eq_false (by rw [hkv2]; exact hne)
      have hk2k : (decide (k2 = k)) = false := decide_eq_false hne
      simp only [List.map_cons, pyDictGet, List.find?, hkv2, if_pos, hk2k, hkvk] at ih ⊢
      simpa using ih
    · simp only [List.map_cons, pyDictGet, List.find?, if_neg hkv2] at ih ⊢
      by_cases hkvk : kv.1 = k
      · simp [List.find?, decide_eq_true hkvk]
      · simp only [List.find?, decide_eq_false hkvk]
        simpa using ih

theorem pyDictGet_append_ne (m : Mapping) (k2 v2 k d : String) (hne : k2 ≠ k) :
    pyDictGet (m ++ [(k2, v2)]) k d = pyDictGet m k d := by
  induction m with
  | nil =>
    simp [pyDictGet, List.find?, decide_eq_false hne]
  | cons kv rest ih =>
    by_cases hkvk : kv.1 = k
    · simp [pyDictGet, List.find?, decide_eq_true hkvk]
    · simp only [List.cons_append, pyDictGet, List.find?, decide_eq_false hkvk] at ih ⊢
      simpa using ih

theorem pyDictGet_set_ne (m : Mapping) (k2 v2 k d : String) (hne : k2 ≠ k) :
    pyDictGet (pyDictSet m k2 v2) k d = pyDictGet m k d := by
  unfold pyDictSet
  split
  · exact pyDictGet_map_ne m k2 v2 k d hne
  · exact pyDictGet_append_ne m k2 v2 k d hne

theorem pyDictGet_ite_set_ne (c : Prop) [Decidable c] (m : Mapping) (k2 v2 k d : String)
    (hne : k2 ≠ k) :
    pyDictGet (if c then m else pyDictSet m k2 v2) k d = pyDictGet m k d := by
  split
  · rfl
  · exact pyDictGet_set_ne m k2 v2 k d hne

theorem pyDictGet_map_same (m : Mapping) (k v d : String) :
    pyDictGet (m.map (fun kv => if kv.1 = k then (k, v) else kv)) k d =
      (if pyDictHas m k then v else d) := by
  induction m with
  | nil => rfl
  | cons kv rest ih =>
    by_cases hkvk : kv.1 = k
    · simp [pyDictGet, pyDictHas, List.find?, hkvk]
    · simp only [List.map_cons, pyDictGet, pyDictHas, List.find?, if_neg hkvk,
        decide_eq_false hkvk] at ih ⊢
      simpa using ih

theorem pyDictGet_append_same (m : Mapping) (k v d : String) (h : pyDictHas m k = false) :
    pyDictGet (m ++ [(k, v)]) k d = v := by
  induction m with
  | nil => simp [pyDictGet, List.find?]
  | cons kv rest ih =>
    simp only [pyDictHas, List.find?] at h
    by_cases hkvk : kv.1 = k
    · simp [decide_eq_true hkvk] at h
    · simp only [decide_eq_false hkvk] at h
      simp only [List.cons_append, pyDictGet, List.find?, decide_eq_false hkvk]
      exact ih h

theorem pyDictGet_set_same (m : Mapping) (k v d : String) :
    pyDictGet (pyDictSet m k v) k d = v := by
  unfold pyDictSet
  split
  · rename_i hc
    rw [pyDictGet_map_same, if_pos hc]
  · rename_i hc
    exact pyDictGet_append_same m k v d (by simpa using hc)

theorem strftime_dmY_ne_empty (d m y : Nat) : strftime_dmY d m y ≠ "" := by
  intro h
  have h0 := congrArg String.length h
  simp [strftime_dmY, String.length_append] at h0
  exact absurd h0.1.2 (by decide)

/-! ## Claims -/

/-- C1.  The claim says the substitution engine replaces every mapped token
(scenario 3: the B1 paragraph ends as "…LOT-44").  On the code this fails:
`create_docx_from_template` always raises the TypeError of line 37 before
any replacement (first conjunct, the code evaluated on the scenario input);
the run-local routine `replace_text_in_paragraph` — which line 37 was meant
to reach with the mapping — does produce the claimed text when actually
given the mapping (second conjunct), showing the claim matches the intent
and the arity slip is the only obstacle. -/
theorem c1_substitution_scenario :
    create_docx_from_template loadW "MOD PSS.docx" scenarioMapping =
      Except.error missingMappingError ∧
    replace_text_in_paragraph scenarioPara scenarioMapping =
      ⟨[⟨0, "Sending you Pre-Shipment sample of LOT-44"⟩]⟩ :=
  ⟨rfl, by decide⟩

/-- C2.  For every document and mapping, `apply_replacements` raises the
TypeError of its first statement (line 37 passes the document but not the
mapping to the two-argument `replace_text_in_block`), so no replacement is
ever performed and `create_docx_from_template` never returns normally for
any loader, template path and mapping. -/
theorem c2_apply_replacements_always_type_error (doc : Doc) (mapping : Mapping)
    (load : String → Doc) (template_path : String) :
    apply_replacements doc mapping = Except.error missingMappingError ∧
    create_docx_from_template load template_path mapping = Except.error missingMappingError :=
  ⟨rfl, rfl⟩

/-- C3.  In the template branch of the submitted handler, any exception from
applying replacements or serializing is caught, reported (the `some e`
component), and the fallback from-scratch document is built and stored, so
generation always yields some artifact bytes. -/
theorem c3_template_branch_catches (ex : String → Bool) (load : String → Doc)
    (tp : String) (mapping : Mapping) (a : FallbackArgs) (e : PyErr) :
    (create_docx_from_template load tp mapping = Except.error e →
      submitted_generate ex load (some tp) mapping a = (runFallback ex a, some e)) ∧
    (∃ bytes reported, submitted_generate ex load (some tp) mapping a = (bytes, reported)) := by
  constructor
  · intro h
    simp [submitted_generate, h]
  · exact ⟨_, _, rfl⟩

theorem c3_template_branch_catches_witness :
    submitted_generate (fun _ => false) loadW (some "MOD PSS.docx") scenarioMapping fbArgsW =
      (runFallback (fun _ => false) fbArgsW, some missingMappingError) :=
  (c3_template_branch_catches (fun _ => false) loadW "MOD PSS.docx" scenarioMapping fbArgsW
    missingMappingError).1 rfl

/-- C4.  `replace_text_in_paragraph` is run-local: the output has exactly one
run per input run; run `i` keeps its styling object and its text is the
mapping applied to run `i`'s text alone (so a token is replaced exactly when
it lies wholly within a single run); and a run containing no mapped token —
in particular one holding part of a token split across runs — is left
verbatim, with no error raised (the function is total). -/
theorem c4_run_local_replacement (mapping : Mapping) (p : Paragraph) :
    ((replace_text_in_paragraph p mapping).runs.length = p.runs.length) ∧
    (∀ i : Nat, (replace_text_in_paragraph p mapping).runs[i]? =
      (p.runs[i]?).map (fun run => ⟨run.style, applyMapping mapping run.text⟩)) ∧
    (∀ (i : Nat) (run : Run), p.runs[i]? = some run →
      (∀ kv ∈ mapping, pyContains run.text kv.1 = false) →
      (replace_text_in_paragraph p mapping).runs[i]? = some run) := by
  refine ⟨?_, ?_, ?_⟩
  · simp [replace_text_in_paragraph]
  · intro i
    simp [replace_text_in_paragraph, List.getElem?_map]
  · intro i run hget h
    cases run with
    | mk style text =>
      simp [replace_text_in_paragraph, List.getElem?_map, hget,
        applyMapping_id_of_no_token mapping text h]

theorem c4_run_local_replacement_witness :
    (replace_text_in_paragraph splitPara scenarioMapping).runs[0]? =
      some ⟨0, "Sending you Pre-Shipment sample of \x7b\x7bB"⟩ :=
  (c4_run_local_replacement scenarioMapping splitPara).2.2 0
    ⟨0, "Sending you Pre-Shipment sample of \x7b\x7bB"⟩ (by decide) (by decide)

/-- C5.  For code "001" (resp. "002") `find_template_for_code` returns the
first existing path of the fixed candidate list, and `none` when no
candidate exists (the if-chains spell out first-match order); any code that
is not "001" or "002" after stripping yields `none`, with no exception
(the function is total). -/
theorem c5_find_template (ex : String → Bool) (code : String) :
    (code = "001" → find_template_for_code ex (some code) =
      (if ex "MOD PSS.docx" then some "MOD PSS.docx"
       else if ex "/mnt/data/MOD PSS.docx" then some "/mnt/data/MOD PSS.docx"
       else if ex "templates/MOD PSS.docx" then some "templates/MOD PSS.docx"
       else none)) ∧
    (code = "002" → find_template_for_code ex (some code) =
      (if ex "FAR PSS.docx" then some "FAR PSS.docx"
       else if ex "/mnt/data/FAR PSS.docx" then some "/mnt/data/FAR PSS.docx"
       else if ex "templates/FAR PSS.docx" then some "templates/FAR PSS.docx"
       else none)) ∧
    (∀ oc : Option String, pyStrip (oc.getD "") ≠ "001" → pyStrip (oc.getD "") ≠ "002" →
      find_template_for_code ex oc = none) := by
  refine ⟨?_, ?_, ?_⟩
  · rintro rfl
    have hs : pyStrip "001" = "001" := by decide
    simp [find_template_for_code, hs, find?_three]
  · rintro rfl
    have hs : pyStrip "002" = "002" := by decide
    simp [find_template_for_code, hs, find?_three]
  · intro oc h1 h2
    simp [find_template_for_code, h1, h2]

theorem c5_find_template_witness :
    find_template_for_code exMOD (some "001") = some "/mnt/data/MOD PSS.docx" ∧
    find_template_for_code exMOD (some "999") = none := by
  constructor
  · rw [(c5_find_template exMOD "001").1 rfl]
    decide
  · exact (c5_find_template exMOD "999").2.2 (some "999") (by decide) (by decide)

/-- C6, counterexample.  The claim asserts no character illegal in filenames
— explicitly including the backslash — survives into the filename.  But the
character class of line 312 does not contain the backslash (`\/` denotes
`/`), so an identifier containing a backslash puts a backslash into the
composed filename. -/
theorem c6_counterexample :
    composeFilename "XYZ" "ab\\cd" 1 1 = "PSS LIPL GEN \\cd 1 of 1.docx" ∧
    '\\' ∈ (composeFilename "XYZ" "ab\\cd" 1 1).toList := by
  constructor
  · decide
  · decide

/-- C6, amended.  For every identifier, the composed filename contains no
character of the class actually stripped at line 312 — `/`, `:`, `*`, `?`,
`"`, `<`, `>`, `|` (the backslash is not in the class and may appear); and
the identifier-derived segment is either the fallback literal "000" or
exactly the last three characters of the stripped identifier. -/
theorem c6_filename_sanitization (user_code po : String) (current total : Nat) :
    (∀ c ∈ (composeFilename user_code po current total).toList, c ∉ illegalClass) ∧
    (po_suffix po = "000" ∨
      ((po_suffix po).toList.length = 3 ∧ (po_suffix po).toList <:+ (safe_po po).toList)) := by
  constructor
  · intro c hc
    have hc2 : c ∈ (composeFilename user_code po current total).data := hc
    simp only [composeFilename, String.data_append, List.append_assoc, List.mem_append] at hc2
    rcases hc2 with hc2 | hc2 | hc2 | hc2 | hc2 | hc2 | hc2 | hc2 | hc2
    · exact (by decide : ∀ x ∈ ("PSS LIPL " : String).data, x ∉ illegalClass) c hc2
    · exact suffixFor_sane user_code c hc2
    · exact (by decide : ∀ x ∈ (" " : String).data, x ∉ illegalClass) c hc2
    · exact po_suffix_sane po c hc2
    · exact (by decide : ∀ x ∈ (" " : String).data, x ∉ illegalClass) c hc2
    · exact digit_not_illegal c (repr_isDigit current c hc2)
    · exact (by decide : ∀ x ∈ (" of " : String).data, x ∉ illegalClass) c hc2
    · exact digit_not_illegal c (repr_isDigit total c hc2)
    · exact (by decide : ∀ x ∈ (".docx" : String).data, x ∉ illegalClass) c hc2
  · unfold po_suffix
    split
    · rename_i hlen
      right
      constructor
      · show ((safe_po po).toList.drop ((safe_po po).toList.length - 3)).length = 3
        rw [List.length_drop]
        omega
      · exact List.drop_suffix _ _
    · left
      rfl

theorem c6_filename_sanitization_witness :
    'P' ∉ illegalClass ∧
    ((po_suffix "a/bcd").toList.length = 3 ∧
      (po_suffix "a/bcd").toList <:+ (safe_po "a/bcd").toList) :=
  ⟨(c6_filename_sanitization "001" "a/bcd" 1 2).1 'P' (by decide),
   Or.resolve_left (c6_filename_sanitization "001" "a/bcd" 1 2).2 (by decide)⟩

/-- C7.  A blank or whitespace-only identifier resolves to the default
literal "PO012" and never to the empty string; a non-blank identifier
resolves to its trimmed value; and in the token mapping every spelling of
the identifier token looks up to that resolved value. -/
theorem c7_po_defaulting (date_val po_id b1 b2 b3 b4 : String)
    (fallback_codes : List String) :
    (pyStrip po_id = "" → po_value po_id = "PO012") ∧
    (pyStrip po_id ≠ "" → po_value po_id = pyStrip po_id) ∧
    po_value po_id ≠ "" ∧
    pyDictGet (buildMapping date_val (po_value po_id) [b1, b2, b3, b4] fallback_codes)
      "\x7b\x7bPO012\x7d\x7d" "" = po_value po_id ∧
    pyDictGet (buildMapping date_val (po_value po_id) [b1, b2, b3, b4] fallback_codes)
      "PO012" "" = po_value po_id ∧
    pyDictGet (buildMapping date_val (po_value po_id) [b1, b2, b3, b4] fallback_codes)
      "\x7b\x7bP.O. ID\x7d\x7d" "" = po_value po_id ∧
    pyDictGet (buildMapping date_val (po_value po_id) [b1, b2, b3, b4] fallback_codes)
      "\x7b\x7bP.O. ID:\x7d\x7d" "" = po_value po_id := by
  have hr : List.range 4 = [0, 1, 2, 3] := rfl
  have ht1 : bTokenTriple 1 = "\x7b\x7b\x7bB1\x7d\x7d\x7d" := rfl
  have ht2 : bTokenTriple 2 = "\x7b\x7b\x7bB2\x7d\x7d\x7d" := rfl
  have ht3 : bTokenTriple 3 = "\x7b\x7b\x7bB3\x7d\x7d\x7d" := rfl
  have ht4 : bTokenTriple 4 = "\x7b\x7b\x7bB4\x7d\x7d\x7d" := rfl
  have hb1 : bTokenBraced 1 = "\x7b\x7bB1\x7d\x7d" := rfl
  have hb2 : bTokenBraced 2 = "\x7b\x7bB2\x7d\x7d" := rfl
  have hb3 : bTokenBraced 3 = "\x7b\x7bB3\x7d\x7d" := rfl
  have hb4 : bTokenBraced 4 = "\x7b\x7bB4\x7d\x7d" := rfl
  have hp1 : bTokenPlain 1 = "B1" := rfl
  have hp2 : bTokenPlain 2 = "B2" := rfl
  have hp3 : bTokenPlain 3 = "B3" := rfl
  have hp4 : bTokenPlain 4 = "B4" := rfl
  refine ⟨?_, ?_, ?_, ?_, ?_, ?_, ?_⟩
  · intro h
    simp [po_value, h]
  · intro h
    have hid : po_id ≠ "" := fun he => h (by rw [he]; rfl)
    simp [po_value, h, hid]
  · unfold po_value
    split
    · rename_i hcond
      exact hcond.2
    · decide
  · simp only [buildMapping, hr, List.foldl_cons, List.foldl_nil]
    simp only [Nat.reduceAdd, ht1, ht2, ht3, ht4, hb1, hb2, hb3, hb4, hp1, hp2, hp3, hp4]
    simp [pyDictGet_ite_set_ne, pyDictGet_set_ne, pyDictGet_set_same]
  · simp only [buildMapping, hr, List.foldl_cons, List.foldl_nil]
    simp only [Nat.reduceAdd, ht1, ht2, ht3, ht4, hb1, hb2, hb3, hb4, hp1, hp2, hp3, hp4]
    simp [pyDictGet_ite_set_ne, pyDictGet_set_ne, pyDictGet_set_same]
  · simp only [buildMapping, hr, List.foldl_cons, List.foldl_nil]
    simp only [Nat.reduceAdd, ht1, ht2, ht3, ht4, hb1, hb2, hb3, hb4, hp1, hp2, hp3, hp4]
    simp [pyDictGet_ite_set_ne, pyDictGet_set_ne, pyDictGet_set_same]
  · simp only [buildMapping, hr, List.foldl_cons, List.foldl_nil]
    simp only [Nat.reduceAdd, ht1, ht2, ht3, ht4, hb1, hb2, hb3, hb4, hp1, hp2, hp3, hp4]
    simp [pyDictGet_ite_set_ne, pyDictGet_set_ne, pyDictGet_set_same]

theorem c7_po_defaulting_witness :
    po_value "   " = "PO012" ∧
    pyDictGet (buildMapping "01/01/2024" (po_value "   ") ["", "", "", ""] [])
      "PO012" "" = "PO012" := by
  have h := c7_po_defaulting "01/01/2024" "   " "" "" "" "" []
  have hblank : pyStrip "   " = "" := by decide
  refine ⟨h.1 hblank, ?_⟩
  rw [h.2.2.2.2.1]
  exact h.1 hblank

/-- C8.  If the typed date string matches the day/month/year pattern and is
a real calendar date, the final date value is that date rendered by
`strftime("%d/%m/%Y")` and overrides the calendar pick; on a pattern
mismatch or an impossible date (the `ValueError` of the `datetime`
constructor, caught at line 258) it falls back to the calendar date; no
exception escapes in either case (the function is total). -/
theorem c8_date_fallback (date_text : String) (cal : CalDate) (d m y : Nat) :
    (matchDatePattern (pyStrip date_text) = some (d, m, y) → datetimeValid y m d = true →
      date_str_final date_text cal = strftime_dmY d m y) ∧
    (matchDatePattern (pyStrip date_text) = some (d, m, y) → datetimeValid y m d = false →
      date_str_final date_text cal = strftime_dmY cal.day cal.month cal.year) ∧
    (matchDatePattern (pyStrip date_text) = none →
      date_str_final date_text cal = strftime_dmY cal.day cal.month cal.year) := by
  refine ⟨?_, ?_, ?_⟩
  · intro hm hv
    simp [date_str_final, hm, hv, strftime_dmY_ne_empty d m y]
  · intro hm hv
    simp [date_str_final, hm, hv]
  · intro hm
    simp [date_str_final, hm]

theorem c8_date_fallback_witness :
    date_str_final "31/02/2024" ⟨2024, 3, 15⟩ = "15/03/2024" ∧
    date_str_final " 5/6/2024 " ⟨2024, 3, 15⟩ = "05/06/2024" := by
  have h1 := (c8_date_fallback "31/02/2024" ⟨2024, 3, 15⟩ 31 2 2024).2.1
    (by decide) (by decide)
  have h2 := (c8_date_fallback " 5/6/2024 " ⟨2024, 3, 15⟩ 5 6 2024).1
    (by decide) (by decide)
  exact ⟨by rw [h1]; decide, by rw [h2]; decide⟩

/-- C9.  Filename composition is a pure total function of the four inputs:
equal inputs give equal filenames, the suffix is always one of the three
labels, and every unrecognized code (anything other than the exact strings
"001" and "002") composes the generic "GEN" filename.  Purity and absence
of I/O hold by construction: lines 310-314 use only string operations,
embedded here as a total Lean function. -/
theorem c9_filename_pure (user_code po : String) (current total : Nat) :
    (∀ code2 po2 cur2 tot2, user_code = code2 → po = po2 → current = cur2 → total = tot2 →
      composeFilename user_code po current total = composeFilename code2 po2 cur2 tot2) ∧
    (suffixFor user_code = "MOD" ∨ suffixFor user_code = "FAR" ∨ suffixFor user_code = "GEN") ∧
    (user_code ≠ "001" → user_code ≠ "002" →
      composeFilename user_code po current total =
        "PSS LIPL GEN " ++ po_suffix po ++ " " ++ Nat.repr current ++ " of " ++
          Nat.repr total ++ ".docx") := by
  refine ⟨?_, ?_, ?_⟩
  · rintro _ _ _ _ rfl rfl rfl rfl
    rfl
  · unfold suffixFor
    split
    · exact Or.inl rfl
    · split
      · exact Or.inr (Or.inl rfl)
      · exact Or.inr (Or.inr rfl)
  · intro h1 h2
    have hs : suffixFor user_code = "GEN" := by simp [suffixFor, h1, h2]
    unfold composeFilename
    rw [hs]
    rfl

theorem c9_filename_pure_witness :
    composeFilename "999" "PO012" 1 2 = "PSS LIPL GEN 012 1 of 2.docx" := by
  rw [(c9_filename_pure "999" "PO012" 1 2).2.2 (by decide) (by decide)]
  decide

/-- C10.  The locator strips the code before matching but the filename
suffix lookup uses the raw code: a code equal to "001" only after trimming
makes `find_template_for_code` search the MOD candidate list (first
existing match), while the composed filename carries "GEN" instead of
"MOD". -/
theorem c10_strip_mismatch (ex : String → Bool) (code : String) :
    pyStrip code = "001" → code ≠ "001" →
      find_template_for_code ex (some code) =
        (if ex "MOD PSS.docx" then some "MOD PSS.docx"
         else if ex "/mnt/data/MOD PSS.docx" then some "/mnt/data/MOD PSS.docx"
         else if ex "templates/MOD PSS.docx" then some "templates/MOD PSS.docx"
         else none) ∧
      suffixFor code = "GEN" := by
  intro hs hne
  have h002 : code ≠ "002" := fun he => by
    rw [he] at hs
    exact absurd hs (by decide)
  constructor
  · simp [find_template_for_code, hs, find?_three]
  · simp [suffixFor, hne, h002]

theorem c10_strip_mismatch_witness :
    find_template_for_code exMOD (some " 001") = some "/mnt/data/MOD PSS.docx" ∧
    suffixFor " 001" = "GEN" := by
  have h := c10_strip_mismatch exMOD " 001" (by decide) (by decide)
  exact ⟨by rw [h.1]; decide, h.2⟩

end PSS
